import Mathlib

/-!
Shallow embedding of the weather-mcp Cloudflare Worker JSON-RPC handler
(`src/build/index.js`): the JSON value model, JavaScript truthiness and
field access, the NWS request helper, the tool branches of the
`tools/call` dispatcher, and the full `fetch` entry point, together with
theorems settling the specification claims about them.
-/

/-- JSON values as parsed by `request.json()`.  Numbers are modelled as
rationals (the source never exercises float-specific behaviour in the
properties under study). -/
inductive Json where
  | null : Json
  | bool : Bool → Json
  | num : ℚ → Json
  | str : String → Json
  | arr : List Json → Json
  | obj : List (String × Json) → Json

/-- First-key lookup in an object's field list. -/
def lookupField : List (String × Json) → String → Option Json
  | [], _ => none
  | (k, v) :: rest, key => if k = key then some v else lookupField rest key

/-- JavaScript property access `j.k`: `none` models `undefined`
(absent field, or access on a primitive, which yields `undefined`). -/
def Json.get : Json → String → Option Json
  | Json.obj fields, key => lookupField fields key
  | _, _ => none

/-- JavaScript truthiness of a JSON value. -/
def Json.truthy : Json → Bool
  | Json.null => false
  | Json.bool b => b
  | Json.num q => !(q == 0)
  | Json.str s => !(s == "")
  | Json.arr _ => true
  | Json.obj _ => true

/-- Whether the value is JSON `null` (property access on it throws). -/
def Json.isNull : Json → Bool
  | Json.null => true
  | _ => false

/-- Truthiness of a possibly-`undefined` value (`undefined` is falsy). -/
def truthyOpt : Option Json → Bool
  | some j => j.truthy
  | none => false

/-- Optional-chained property access on a possibly-`undefined` value. -/
def getOpt (o : Option Json) (key : String) : Option Json :=
  o.bind (fun j => j.get key)

/-- Decimal digits of a proper fraction `r / d`, fuel-limited. -/
def fracDigits : Nat → Nat → Nat → String
  | 0, _, _ => ""
  | _, 0, _ => ""
  | Nat.succ fuel, r, d => toString (r * 10 / d) ++ fracDigits fuel (r * 10 % d) d

/-- JavaScript number-to-string rendering (exact for integers, which is
all the claims exercise; non-integers get a fuel-limited decimal
expansion). -/
def ratToJsString (q : ℚ) : String :=
  if q.den = 1 then toString q.num
  else
    (if q.num < 0 then "-" else "")
      ++ toString (q.num.natAbs / q.den) ++ "."
      ++ fracDigits 17 (q.num.natAbs % q.den) q.den

mutual

/-- JavaScript string coercion of a value, as in a template literal. -/
def jsToString : Json → String
  | Json.null => "null"
  | Json.bool b => if b then "true" else "false"
  | Json.num q => ratToJsString q
  | Json.str s => s
  | Json.arr xs => jsArrayToString xs
  | Json.obj _ => "[object Object]"

/-- JavaScript `Array.prototype.toString`: comma-joined elements with
`null` rendered empty. -/
def jsArrayToString : List Json → String
  | [] => ""
  | [Json.null] => ""
  | [x] => jsToString x
  | Json.null :: xs => "," ++ jsArrayToString xs
  | x :: xs => jsToString x ++ "," ++ jsArrayToString xs

end

/-- Floor of a rational, computably. -/
def ratFloor (q : ℚ) : Int := Int.fdiv q.num (Int.ofNat q.den)

/-- Zero-pad a natural number to four digits. -/
def padTo4 (n : Nat) : String :=
  let s := toString n
  String.mk (List.replicate (4 - s.length) '0') ++ s

/-- JavaScript `Number.prototype.toFixed(4)`: four decimal digits,
rounding half up. -/
def toFixed4 (q : ℚ) : String :=
  let n : Int := ratFloor (q * 10000 + 1 / 2)
  (if n < 0 then "-" else "")
    ++ toString (n.natAbs / 10000) ++ "." ++ padTo4 (n.natAbs % 10000)

/-- Outcome of one `fetch` of an external URL: a network error, or an
HTTP response with its `ok` flag and its body when it parses as JSON. -/
inductive FetchOutcome where
  | netError : FetchOutcome
  | httpResp : Bool → Option Json → FetchOutcome

/-- Source function `makeNWSRequest` (lines 38-54): returns the parsed JSON body,
or `none` (the source's `null`) when the fetch throws, the status is not
ok, or the body does not parse. -/
def makeNWSRequest : FetchOutcome → Option Json
  | FetchOutcome.netError => none
  | FetchOutcome.httpResp ok body => if ok then body else none

/-- ASCII uppercasing of one character, as `String.prototype.toUpperCase`
acts on the two-letter codes in play. -/
def upChar (c : Char) : Char :=
  if c.isLower then Char.ofNat (c.toNat - 32) else c

/-- The `String.prototype.toUpperCase` coercion (ASCII range). -/
def jsToUpper (s : String) : String := String.mk (s.data.map upChar)

/-- Rendering of `v || fallback` into a template literal: the coerced string
of `v` when truthy, the fallback otherwise. -/
def jsOrStr (v : Option Json) (fallback : String) : String :=
  match v with
  | some j => if j.truthy then jsToString j else fallback
  | none => fallback

/-- Source function `formatAlert` (lines 56-66).  Property access on a `null`
feature or `null`/`undefined` `properties` throws, modelled as
`Except.error` carrying the exception message. -/
def formatAlert (feature : Json) : Except String String :=
  if feature.isNull then Except.error "Cannot read properties of null"
  else
    match feature.get "properties" with
    | none => Except.error "Cannot read properties of undefined"
    | some props =>
      if props.isNull then Except.error "Cannot read properties of null"
      else Except.ok (String.intercalate "\n" [
        "Event: " ++ jsOrStr (props.get "event") "Unknown",
        "Area: " ++ jsOrStr (props.get "areaDesc") "Unknown",
        "Severity: " ++ jsOrStr (props.get "severity") "Unknown",
        "Status: " ++ jsOrStr (props.get "status") "Unknown",
        "Headline: " ++ jsOrStr (props.get "headline") "No headline",
        "---"])

/-- The forecast-period formatting lambda (source lines 495-501): each
field is tested for truthiness (`||`) before rendering, with the
fallbacks of the source. -/
def formatPeriod (period : Json) : Except String String :=
  if period.isNull then Except.error "Cannot read properties of null"
  else Except.ok (String.intercalate "\n" [
    jsOrStr (period.get "name") "Unknown" ++ ":",
    "Temperature: " ++ jsOrStr (period.get "temperature") "Unknown"
      ++ "°" ++ jsOrStr (period.get "temperatureUnit") "F",
    "Wind: " ++ jsOrStr (period.get "windSpeed") "Unknown"
      ++ " " ++ jsOrStr (period.get "windDirection") "",
    jsOrStr (period.get "shortForecast") "No forecast available",
    "---"])

/-- Body of an HTTP response produced by the worker: empty (OPTIONS
preflight, 204 notification), the inline HTML help page (GET), or a
JSON payload. -/
inductive RespBody where
  | empty : RespBody
  | html : RespBody
  | json : Json → RespBody

/-- An HTTP response: status plus body. -/
structure HttpResponse where
  status : Nat
  body : RespBody

/-- An inbound HTTP request: its method, and its body as the result of
`request.json()` (`Except.error msg` models a body that fails to parse,
`msg` being the thrown parse-error message). -/
structure HttpRequest where
  method : String
  body : Except String Json

/-- The `id` member of a stringified envelope: omitted when the request
id was `undefined` (JSON.stringify drops `undefined` members). -/
def idField : Option Json → List (String × Json)
  | some v => [("id", v)]
  | none => []

/-- The `data` member spread `...(data && { data })` of
`createErrorResponse`: present only when `data` is a truthy string. -/
def dataField : Option String → List (String × Json)
  | some s => if s = "" then [] else [("data", Json.str s)]
  | none => []

/-- The error envelope built by `createErrorResponse` (lines 540-548). -/
def errorEnvelope (code : Int) (message : String) (data : Option String)
    (id : Option Json) : Json :=
  Json.obj ([("jsonrpc", Json.str "2.0"),
    ("error", Json.obj ([("code", Json.num (code : ℚ)),
      ("message", Json.str message)] ++ dataField data))] ++ idField id)

/-- The success envelope built at lines 519-523. -/
def successEnvelope (result : Json) (id : Option Json) : Json :=
  Json.obj ([("jsonrpc", Json.str "2.0"), ("result", result)] ++ idField id)

/-- Source function `createErrorResponse` (lines 539-555): HTTP 200 carrying the
error envelope. -/
def createErrorResponse (code : Int) (message : String) (id : Option Json)
    (data : Option String) : HttpResponse :=
  HttpResponse.mk 200 (RespBody.json (errorEnvelope code message data id))

/-- What one `switch` branch of the POST handler produces: a result to
wrap in a success envelope, a JSON-RPC error, or no response at all
(the `notifications/initialized` notification). -/
inductive RpcOut where
  | success : Json → RpcOut
  | rpcError : Int → String → Option String → RpcOut
  | noResponse : RpcOut

/-- Attach the request id and render an `RpcOut` as the HTTP response
(success envelope at lines 519-530, `createErrorResponse` at each error
site, `204` with no body for the notification). -/
def renderRpc : RpcOut → Option Json → HttpResponse
  | RpcOut.success r, id => HttpResponse.mk 200 (RespBody.json (successEnvelope r id))
  | RpcOut.rpcError c m d, id => createErrorResponse c m id d
  | RpcOut.noResponse, _ => HttpResponse.mk 204 RespBody.empty

/-- The `initialize` result object (lines 328-340). -/
def initResult : Json :=
  Json.obj [
    ("protocolVersion", Json.str "2024-11-05"),
    ("capabilities", Json.obj [
      ("tools", Json.obj []), ("resources", Json.obj []),
      ("prompts", Json.obj []), ("logging", Json.obj [])]),
    ("serverInfo", Json.obj [
      ("name", Json.str "weather"), ("version", Json.str "1.0.0")])]

/-- The `get_alerts` catalog entry advertised by `tools/list`
(lines 351-366). -/
def getAlertsDescriptor : Json :=
  Json.obj [
    ("name", Json.str "get_alerts"),
    ("description", Json.str "Get weather alerts for a state"),
    ("inputSchema", Json.obj [
      ("type", Json.str "object"),
      ("properties", Json.obj [
        ("state", Json.obj [
          ("type", Json.str "string"),
          ("minLength", Json.num 2),
          ("maxLength", Json.num 2),
          ("description", Json.str "Two-letter state code (e.g. CA, NY)")])]),
      ("required", Json.arr [Json.str "state"])])]

/-- The `get_forecast` catalog entry advertised by `tools/list`
(lines 367-388). -/
def getForecastDescriptor : Json :=
  Json.obj [
    ("name", Json.str "get_forecast"),
    ("description", Json.str "Get weather forecast for a location"),
    ("inputSchema", Json.obj [
      ("type", Json.str "object"),
      ("properties", Json.obj [
        ("latitude", Json.obj [
          ("type", Json.str "number"),
          ("minimum", Json.num (-90)),
          ("maximum", Json.num 90),
          ("description", Json.str "Latitude of the location")]),
        ("longitude", Json.obj [
          ("type", Json.str "number"),
          ("minimum", Json.num (-180)),
          ("maximum", Json.num 180),
          ("description", Json.str "Longitude of the location")])]),
      ("required", Json.arr [Json.str "latitude", Json.str "longitude"])])]

/-- The `tools/list` result (lines 349-390). -/
def toolsListResult : Json :=
  Json.obj [("tools", Json.arr [getAlertsDescriptor, getForecastDescriptor])]

/-- The constant `NWS_API_BASE` (line 4). -/
def NWS_API_BASE : String := "https://api.weather.gov"

/-- The alerts query URL for a (already uppercased) state code. -/
def alertsUrl (stateCode : String) : String :=
  NWS_API_BASE ++ "/alerts?area=" ++ stateCode

/-- The points-lookup URL built with `toFixed(4)` coordinates. -/
def pointsUrl (latitude longitude : ℚ) : String :=
  NWS_API_BASE ++ "/points/" ++ toFixed4 latitude ++ "," ++ toFixed4 longitude

/-- A result carrying a single text content block. -/
def contentResult (text : String) : Json :=
  Json.obj [("content", Json.arr [
    Json.obj [("type", Json.str "text"), ("text", Json.str text)]])]

/-- The degraded text when the points lookup yields no data
(lines 450-457). -/
def gridFailText (latitude longitude : ℚ) : String :=
  "Failed to retrieve grid point data for coordinates: "
    ++ ratToJsString latitude ++ ", " ++ ratToJsString longitude
    ++ ". This location may not be supported by the NWS API (only US locations are supported)."

/-- The defaulting of `params.arguments` to an empty object at lines
407 and 441. -/
def argsOf (params : Option Json) : Json :=
  match getOpt params "arguments" with
  | some a => if a.truthy then a else Json.obj []
  | none => Json.obj []

/-- The `get_alerts` branch of `tools/call` (lines 406-439).  The pair's
second component is the list of external URLs fetched; `Except.error`
models a thrown exception reaching the surrounding `try`. -/
def getAlertsBranch (env : String → FetchOutcome) (args : Json) :
    Except String RpcOut × List String :=
  if truthyOpt (args.get "state") then
    match args.get "state" with
    | some (Json.str state) =>
      let stateCode := jsToUpper state
      let url := alertsUrl stateCode
      let alertsData := makeNWSRequest (env url)
      if truthyOpt alertsData then
        match getOpt alertsData "features" with
        | some (Json.arr features) =>
          if features.isEmpty then
            (Except.ok (RpcOut.success (contentResult
              ("No active alerts for " ++ stateCode))), [url])
          else
            match features.mapM formatAlert with
            | Except.ok formattedAlerts =>
              (Except.ok (RpcOut.success (contentResult
                ("Active alerts for " ++ stateCode ++ ":\n\n"
                  ++ String.intercalate "\n" formattedAlerts))), [url])
            | Except.error e => (Except.error e, [url])
        | some v =>
          if v.truthy then (Except.error "features.map is not a function", [url])
          else
            (Except.ok (RpcOut.success (contentResult
              ("No active alerts for " ++ stateCode))), [url])
        | none =>
          (Except.ok (RpcOut.success (contentResult
            ("No active alerts for " ++ stateCode))), [url])
      else
        (Except.ok (RpcOut.success (contentResult
          "Failed to retrieve alerts data")), [url])
    | _ => (Except.error "state.toUpperCase is not a function", [])
  else
    (Except.ok (RpcOut.rpcError (-32602) "Missing required parameter: state" none), [])

/-- The `get_forecast` branch of `tools/call` (lines 440-510). -/
def getForecastBranch (env : String → FetchOutcome) (args : Json) :
    Except String RpcOut × List String :=
  match args.get "latitude", args.get "longitude" with
  | none, _ =>
    (Except.ok (RpcOut.rpcError (-32602)
      "Missing required parameters: latitude and/or longitude" none), [])
  | _, none =>
    (Except.ok (RpcOut.rpcError (-32602)
      "Missing required parameters: latitude and/or longitude" none), [])
  | some (Json.num latitude), some (Json.num longitude) =>
    let pUrl := pointsUrl latitude longitude
    let pointsData := makeNWSRequest (env pUrl)
    if truthyOpt pointsData then
      match getOpt (getOpt pointsData "properties") "forecast" with
      | some fUrl =>
        if fUrl.truthy then
          let url2 := jsToString fUrl
          let forecastData := makeNWSRequest (env url2)
          if truthyOpt forecastData then
            match getOpt (getOpt forecastData "properties") "periods" with
            | some (Json.arr periods) =>
              if periods.isEmpty then
                (Except.ok (RpcOut.success (contentResult
                  "No forecast periods available")), [pUrl, url2])
              else
                match periods.mapM formatPeriod with
                | Except.ok formattedForecast =>
                  (Except.ok (RpcOut.success (contentResult
                    ("Forecast for " ++ ratToJsString latitude ++ ", "
                      ++ ratToJsString longitude ++ ":\n\n"
                      ++ String.intercalate "\n" formattedForecast))), [pUrl, url2])
                | Except.error e => (Except.error e, [pUrl, url2])
            | some v =>
              if v.truthy then
                (Except.error "periods.map is not a function", [pUrl, url2])
              else
                (Except.ok (RpcOut.success (contentResult
                  "No forecast periods available")), [pUrl, url2])
            | none =>
              (Except.ok (RpcOut.success (contentResult
                "No forecast periods available")), [pUrl, url2])
          else
            (Except.ok (RpcOut.success (contentResult
              "Failed to retrieve forecast data")), [pUrl, url2])
        else
          (Except.ok (RpcOut.success (contentResult
            "Failed to get forecast URL from grid point data")), [pUrl])
      | none =>
        (Except.ok (RpcOut.success (contentResult
          "Failed to get forecast URL from grid point data")), [pUrl])
    else
      (Except.ok (RpcOut.success (contentResult
        (gridFailText latitude longitude))), [pUrl])
  | _, _ => (Except.error "latitude.toFixed is not a function", [])

/-- The `tools/call` case (lines 402-514). -/
def toolsCallCase (env : String → FetchOutcome) (params : Option Json) :
    Except String RpcOut × List String :=
  if truthyOpt params && truthyOpt (getOpt params "name") then
    match getOpt params "name" with
    | some (Json.str "get_alerts") => getAlertsBranch env (argsOf params)
    | some (Json.str "get_forecast") => getForecastBranch env (argsOf params)
    | some nm =>
      (Except.ok (RpcOut.rpcError (-32601)
        ("Unknown tool: " ++ jsToString nm) none), [])
    | none =>
      (Except.ok (RpcOut.rpcError (-32601) "Unknown tool: undefined" none), [])
  else
    (Except.ok (RpcOut.rpcError (-32602) "Invalid params" none), [])

/-- The method `switch` of the POST handler (lines 326-517). -/
def dispatch (env : String → FetchOutcome) (method params : Option Json) :
    Except String RpcOut × List String :=
  match method with
  | some (Json.str m) =>
    if m = "initialize" then (Except.ok (RpcOut.success initResult), [])
    else if m = "notifications/initialized" then (Except.ok RpcOut.noResponse, [])
    else if m = "ping" then (Except.ok (RpcOut.success (Json.obj [])), [])
    else if m = "tools/list" then (Except.ok (RpcOut.success toolsListResult), [])
    else if m = "resources/list" then
      (Except.ok (RpcOut.success (Json.obj [("resources", Json.arr [])])), [])
    else if m = "prompts/list" then
      (Except.ok (RpcOut.success (Json.obj [("prompts", Json.arr [])])), [])
    else if m = "tools/call" then toolsCallCase env params
    else
      (Except.ok (RpcOut.rpcError (-32601) ("Method not found: " ++ m) none), [])
  | some j =>
    (Except.ok (RpcOut.rpcError (-32601)
      ("Method not found: " ++ jsToString j) none), [])
  | none =>
    (Except.ok (RpcOut.rpcError (-32601) "Method not found: undefined" none), [])

/-- Handling of a successfully parsed POST body: destructure
`method`/`params`/`id` (throws on a `null` body), dispatch, and wrap.
A thrown exception reaches the `catch` (lines 532-535), which responds
`-32603 Internal error` with an explicit `null` id. -/
def handlePost (env : String → FetchOutcome) (body : Json) :
    HttpResponse × List String :=
  if body.isNull then
    (createErrorResponse (-32603) "Internal error" (some Json.null)
      (some "Cannot destructure property method of null"), [])
  else
    match dispatch env (body.get "method") (body.get "params") with
    | (Except.ok out, calls) => (renderRpc out (body.get "id"), calls)
    | (Except.error msg, calls) =>
      (createErrorResponse (-32603) "Internal error" (some Json.null) (some msg),
        calls)

/-- The worker `fetch` entry point (lines 194-537): OPTIONS preflight,
GET help page, non-POST rejection, then the JSON-RPC POST path inside
`try`/`catch`. -/
def fetch (env : String → FetchOutcome) (req : HttpRequest) :
    HttpResponse × List String :=
  if req.method = "OPTIONS" then (HttpResponse.mk 200 RespBody.empty, [])
  else if req.method = "GET" then (HttpResponse.mk 200 RespBody.html, [])
  else if req.method ≠ "POST" then
    (HttpResponse.mk 200 (RespBody.json (errorEnvelope (-32601)
      "Method not found - This endpoint only accepts POST requests with JSON-RPC 2.0 format"
      none (some Json.null))), [])
  else
    match req.body with
    | Except.error parseMsg =>
      (createErrorResponse (-32603) "Internal error" (some Json.null)
        (some parseMsg), [])
    | Except.ok body => handlePost env body

/-- An environment in which every external call fails at the network
level. -/
def noNetwork : String → FetchOutcome := fun _ => FetchOutcome.netError

theorem successEnvelope_get_id (r : Json) (id : Option Json) :
    (successEnvelope r id).get "id" = id := by
  cases id <;> rfl

theorem errorEnvelope_get_id (c : Int) (m : String) (d : Option String)
    (id : Option Json) :
    (errorEnvelope c m d id).get "id" = id := by
  cases id <;> rfl

/-- C1: the catalog advertised by `tools/list` declares `state` with
`minLength`/`maxLength` 2 and latitude/longitude ranges, yet the
`tools/call` handler does not enforce them: it accepts the three-letter
state `"CAX"` and the out-of-range latitude `999`, contacting the
external API and answering with a tool result instead of rejecting, so
the advertised schema does not match the validation performed. -/
theorem c1_catalog_validation_drift :
    dispatch noNetwork (some (Json.str "tools/list")) none
      = (Except.ok (RpcOut.success toolsListResult), [])
    ∧ getOpt (getOpt (getOpt (Json.get getAlertsDescriptor "inputSchema") "properties") "state") "minLength"
        = some (Json.num 2)
    ∧ getOpt (getOpt (getOpt (Json.get getAlertsDescriptor "inputSchema") "properties") "state") "maxLength"
        = some (Json.num 2)
    ∧ getOpt (getOpt (getOpt (Json.get getForecastDescriptor "inputSchema") "properties") "latitude") "minimum"
        = some (Json.num (-90))
    ∧ getOpt (getOpt (getOpt (Json.get getForecastDescriptor "inputSchema") "properties") "latitude") "maximum"
        = some (Json.num 90)
    ∧ getOpt (getOpt (getOpt (Json.get getForecastDescriptor "inputSchema") "properties") "longitude") "minimum"
        = some (Json.num (-180))
    ∧ getOpt (getOpt (getOpt (Json.get getForecastDescriptor "inputSchema") "properties") "longitude") "maximum"
        = some (Json.num 180)
    ∧ getAlertsBranch noNetwork (Json.obj [("state", Json.str "CAX")])
        = (Except.ok (RpcOut.success (contentResult "Failed to retrieve alerts data")),
            [alertsUrl "CAX"])
    ∧ getForecastBranch noNetwork
          (Json.obj [("latitude", Json.num 999), ("longitude", Json.num 0)])
        = (Except.ok (RpcOut.success (contentResult (gridFailText 999 0))),
            [pointsUrl 999 0]) :=
  ⟨rfl, rfl, rfl, rfl, rfl, rfl, rfl, rfl, rfl⟩

/-- C2 counterexample: a POST body that fails to parse is answered by
the catch block with code `-32603` and message `"Internal error"` — not
the `-32700` / `"Parse error"` the claim states. -/
theorem c2_parse_failure_counterexample :
    (fetch noNetwork (HttpRequest.mk "POST"
        (Except.error "Unexpected end of JSON input"))).1
      = createErrorResponse (-32603) "Internal error" (some Json.null)
          (some "Unexpected end of JSON input")
    ∧ getOpt ((errorEnvelope (-32603) "Internal error"
          (some "Unexpected end of JSON input") (some Json.null)).get "error") "code"
        = some (Json.num ((-32603 : Int) : ℚ))
    ∧ ((-32603 : Int) : ℚ) ≠ ((-32700 : Int) : ℚ) :=
  ⟨rfl, rfl, by norm_num⟩

/-- C2 amended: an unparseable POST body yields the error envelope with
code `-32603`, message `"Internal error"`, the parse failure's message
in `data`, and id `null`. -/
theorem c2_amended_parse_failure_internal_error
    (env : String → FetchOutcome) (msg : String) :
    fetch env (HttpRequest.mk "POST" (Except.error msg))
      = (createErrorResponse (-32603) "Internal error" (some Json.null) (some msg),
          []) := rfl

/-- C3: the `get_alerts` branch rejects a missing `state` with `-32602`,
but a `state` whose length is not 2 is not rejected: `"CAX"` is passed
through, the external API is contacted (the calls list is nonempty), and
a success result is produced. -/
theorem c3_alerts_length_not_validated :
    dispatch noNetwork (some (Json.str "tools/call"))
        (some (Json.obj [("name", Json.str "get_alerts"),
          ("arguments", Json.obj [("state", Json.str "CAX")])]))
      = (Except.ok (RpcOut.success (contentResult "Failed to retrieve alerts data")),
          [alertsUrl "CAX"])
    ∧ ([alertsUrl "CAX"] : List String) ≠ []
    ∧ dispatch noNetwork (some (Json.str "tools/call"))
        (some (Json.obj [("name", Json.str "get_alerts"),
          ("arguments", Json.obj [])]))
      = (Except.ok (RpcOut.rpcError (-32602) "Missing required parameter: state" none),
          [])
    ∧ RpcOut.success (contentResult "Failed to retrieve alerts data")
        ≠ RpcOut.rpcError (-32602) "Invalid params" none :=
  ⟨rfl, fun h => List.noConfusion h, rfl, fun h => RpcOut.noConfusion h⟩

/-- C4: the `get_forecast` branch rejects missing coordinates with
`-32602`, but out-of-range values are not rejected: latitude `999`
(outside `[-90, 90]`) is passed through, the external points API is
contacted, and a success result is produced. -/
theorem c4_forecast_range_not_validated :
    dispatch noNetwork (some (Json.str "tools/call"))
        (some (Json.obj [("name", Json.str "get_forecast"),
          ("arguments", Json.obj [("latitude", Json.num 999),
            ("longitude", Json.num 0)])]))
      = (Except.ok (RpcOut.success (contentResult (gridFailText 999 0))),
          [pointsUrl 999 0])
    ∧ ([pointsUrl 999 0] : List String) ≠ []
    ∧ ¬ ((999 : ℚ) ≤ 90)
    ∧ dispatch noNetwork (some (Json.str "tools/call"))
        (some (Json.obj [("name", Json.str "get_forecast"),
          ("arguments", Json.obj [("longitude", Json.num 0)])]))
      = (Except.ok (RpcOut.rpcError (-32602)
          "Missing required parameters: latitude and/or longitude" none), []) :=
  ⟨rfl, fun h => List.noConfusion h, by norm_num, rfl⟩

/-- C5 counterexample: a parsed request with id `7` whose handling
throws (`state` is the number `5`, so `toUpperCase` throws) is answered
by the catch block with id `null`, not the request's id. -/
theorem c5_catch_discards_id :
    (handlePost noNetwork (Json.obj [("method", Json.str "tools/call"),
        ("params", Json.obj [("name", Json.str "get_alerts"),
          ("arguments", Json.obj [("state", Json.num 5)])]),
        ("id", Json.num 7)])).1
      = createErrorResponse (-32603) "Internal error" (some Json.null)
          (some "state.toUpperCase is not a function")
    ∧ (Json.obj [("method", Json.str "tools/call"),
        ("params", Json.obj [("name", Json.str "get_alerts"),
          ("arguments", Json.obj [("state", Json.num 5)])]),
        ("id", Json.num 7)]).get "id" = some (Json.num 7)
    ∧ (errorEnvelope (-32603) "Internal error"
        (some "state.toUpperCase is not a function") (some Json.null)).get "id"
        = some Json.null
    ∧ Json.null ≠ Json.num 7 :=
  ⟨rfl, rfl, rfl, fun h => Json.noConfusion h⟩

/-- C5 amended: every response the dispatch path produces (success or
error envelope) carries the request's id unchanged — including `null`
and numeric ids, and omitting it when absent — while only the
catch-block `-32603` envelope replaces it with `null`. -/
theorem c5_amended_dispatch_preserves_id
    (env : String → FetchOutcome) (body : Json) (out : RpcOut)
    (calls : List String) (j : Json)
    (hnull : body.isNull = false)
    (hdisp : dispatch env (body.get "method") (body.get "params")
      = (Except.ok out, calls))
    (hbody : (handlePost env body).1.body = RespBody.json j) :
    j.get "id" = body.get "id" := by
  have key : handlePost env body = (renderRpc out (body.get "id"), calls) := by
    simp [handlePost, hnull, hdisp]
  rw [key] at hbody
  cases out with
  | success r =>
    simp only [renderRpc] at hbody
    injection hbody with h
    rw [← h]
    exact successEnvelope_get_id r (body.get "id")
  | rpcError c m d =>
    simp only [renderRpc, createErrorResponse] at hbody
    injection hbody with h
    rw [← h]
    exact errorEnvelope_get_id c m d (body.get "id")
  | noResponse =>
    exact RespBody.noConfusion hbody

theorem c5_amended_dispatch_preserves_id_witness :
    (Json.obj [("method", Json.str "ping"), ("id", Json.null)]).isNull = false
    ∧ dispatch noNetwork
        ((Json.obj [("method", Json.str "ping"), ("id", Json.null)]).get "method")
        ((Json.obj [("method", Json.str "ping"), ("id", Json.null)]).get "params")
      = (Except.ok (RpcOut.success (Json.obj [])), [])
    ∧ (handlePost noNetwork
        (Json.obj [("method", Json.str "ping"), ("id", Json.null)])).1.body
      = RespBody.json (successEnvelope (Json.obj []) (some Json.null))
    ∧ (successEnvelope (Json.obj []) (some Json.null)).get "id"
      = (Json.obj [("method", Json.str "ping"), ("id", Json.null)]).get "id" :=
  ⟨rfl, rfl, rfl,
    c5_amended_dispatch_preserves_id noNetwork
      (Json.obj [("method", Json.str "ping"), ("id", Json.null)])
      (RpcOut.success (Json.obj [])) []
      (successEnvelope (Json.obj []) (some Json.null)) rfl rfl rfl⟩

/-- C6 counterexample: a GET request is answered with the HTML help
page (HTTP 200), not with the `-32601` error envelope the claim states
for every non-POST/non-OPTIONS method. -/
theorem c6_get_returns_html :
    fetch noNetwork (HttpRequest.mk "GET" (Except.ok Json.null))
      = (HttpResponse.mk 200 RespBody.html, [])
    ∧ RespBody.html ≠ RespBody.json (errorEnvelope (-32601)
        "Method not found - This endpoint only accepts POST requests with JSON-RPC 2.0 format"
        none (some Json.null)) :=
  ⟨rfl, fun h => RespBody.noConfusion h⟩

/-- C6 amended: a request whose method is neither POST, OPTIONS nor GET
receives the `-32601` error envelope with HTTP status 200 (GET instead
receives the HTML help page, also with status 200). -/
theorem c6_amended_other_methods_rejected
    (env : String → FetchOutcome) (b : Except String Json) (m : String)
    (hp : m ≠ "POST") (ho : m ≠ "OPTIONS") (hg : m ≠ "GET") :
    fetch env (HttpRequest.mk m b)
      = (HttpResponse.mk 200 (RespBody.json (errorEnvelope (-32601)
          "Method not found - This endpoint only accepts POST requests with JSON-RPC 2.0 format"
          none (some Json.null))), [])
    ∧ fetch env (HttpRequest.mk "GET" b) = (HttpResponse.mk 200 RespBody.html, []) := by
  constructor
  · simp [fetch, ho, hg, hp]
  · rfl

theorem c6_amended_other_methods_rejected_witness :
    ("DELETE" : String) ≠ "POST" ∧ ("DELETE" : String) ≠ "OPTIONS"
    ∧ ("DELETE" : String) ≠ "GET"
    ∧ fetch noNetwork (HttpRequest.mk "DELETE" (Except.ok Json.null))
      = (HttpResponse.mk 200 (RespBody.json (errorEnvelope (-32601)
          "Method not found - This endpoint only accepts POST requests with JSON-RPC 2.0 format"
          none (some Json.null))), [])
    ∧ fetch noNetwork (HttpRequest.mk "GET" (Except.ok Json.null))
      = (HttpResponse.mk 200 RespBody.html, []) :=
  ⟨by decide, by decide, by decide,
    (c6_amended_other_methods_rejected noNetwork (Except.ok Json.null) "DELETE"
      (by decide) (by decide) (by decide)).1,
    (c6_amended_other_methods_rejected noNetwork (Except.ok Json.null) "DELETE"
      (by decide) (by decide) (by decide)).2⟩

/-- C7: `makeNWSRequest` normalizes every failure mode (network error,
non-ok status, unparseable body) to the single no-data signal `none`,
and on that signal both tool branches still produce a success result
whose content block text describes the failure. -/
theorem c7_failures_normalized_to_none :
    (∀ b, makeNWSRequest FetchOutcome.netError = none
      ∧ makeNWSRequest (FetchOutcome.httpResp false b) = none)
    ∧ makeNWSRequest (FetchOutcome.httpResp true none) = none
    ∧ (∀ (env : String → FetchOutcome) (s : String), s ≠ "" →
        makeNWSRequest (env (alertsUrl (jsToUpper s))) = none →
        getAlertsBranch env (Json.obj [("state", Json.str s)])
          = (Except.ok (RpcOut.success (contentResult "Failed to retrieve alerts data")),
              [alertsUrl (jsToUpper s)]))
    ∧ (∀ (env : String → FetchOutcome) (la lo : ℚ),
        makeNWSRequest (env (pointsUrl la lo)) = none →
        getForecastBranch env
            (Json.obj [("latitude", Json.num la), ("longitude", Json.num lo)])
          = (Except.ok (RpcOut.success (contentResult (gridFailText la lo))),
              [pointsUrl la lo])) := by
  refine ⟨fun b => ⟨rfl, rfl⟩, rfl, ?_, ?_⟩
  · intro env s hs hfail
    simp [getAlertsBranch, truthyOpt, Json.get, lookupField, Json.truthy, hs, hfail]
  · intro env la lo hfail
    simp [getForecastBranch, truthyOpt, Json.get, lookupField, hfail]

/-- C8: a validated (truthy) `state` is uppercased before being used in
the query URL and in the result text, and an empty external feature
list yields the single content block `No active alerts for <CODE>`. -/
theorem c8_uppercase_and_empty_alerts
    (env : String → FetchOutcome) (s : String) (d : Json)
    (hs : s ≠ "")
    (hd : makeNWSRequest (env (alertsUrl (jsToUpper s))) = some d)
    (ht : d.truthy = true)
    (hf : d.get "features" = some (Json.arr [])) :
    getAlertsBranch env (Json.obj [("state", Json.str s)])
      = (Except.ok (RpcOut.success (contentResult
          ("No active alerts for " ++ jsToUpper s))),
          [alertsUrl (jsToUpper s)]) := by
  have h1 : (Json.obj [("state", Json.str s)]).get "state" = some (Json.str s) := rfl
  have h2 : Json.truthy (Json.str s) = true := by simp [Json.truthy, hs]
  simp [getAlertsBranch, truthyOpt, getOpt, h1, h2, hd, ht, hf]

theorem c8_uppercase_and_empty_alerts_witness :
    ("ny" : String) ≠ ""
    ∧ makeNWSRequest ((fun _ => FetchOutcome.httpResp true
        (some (Json.obj [("features", Json.arr [])]))) (alertsUrl (jsToUpper "ny")))
      = some (Json.obj [("features", Json.arr [])])
    ∧ (Json.obj [("features", Json.arr [])]).truthy = true
    ∧ (Json.obj [("features", Json.arr [])]).get "features" = some (Json.arr [])
    ∧ getAlertsBranch (fun _ => FetchOutcome.httpResp true
        (some (Json.obj [("features", Json.arr [])])))
        (Json.obj [("state", Json.str "ny")])
      = (Except.ok (RpcOut.success (contentResult "No active alerts for NY")),
          [alertsUrl "NY"]) := by
  refine ⟨by decide, rfl, rfl, rfl, ?_⟩
  have h := c8_uppercase_and_empty_alerts
    (fun _ => FetchOutcome.httpResp true (some (Json.obj [("features", Json.arr [])])))
    "ny" (Json.obj [("features", Json.arr [])]) (by decide) rfl rfl rfl
  exact h

/-- C9: a parsed POST body whose method is `notifications/initialized`
produces HTTP status 204 with an empty body — no response payload, and
in particular not a success envelope carrying an empty-object result. -/
theorem c9_notification_no_response
    (env : String → FetchOutcome) (fields : List (String × Json))
    (hm : lookupField fields "method" = some (Json.str "notifications/initialized")) :
    fetch env (HttpRequest.mk "POST" (Except.ok (Json.obj fields)))
      = (HttpResponse.mk 204 RespBody.empty, [])
    ∧ RespBody.empty
      ≠ RespBody.json (successEnvelope (Json.obj []) (lookupField fields "id")) := by
  constructor
  · simp [fetch, handlePost, dispatch, renderRpc, Json.isNull, Json.get, hm]
  · exact fun h => RespBody.noConfusion h

theorem c9_notification_no_response_witness :
    lookupField [("method", Json.str "notifications/initialized"), ("id", Json.num 1)]
        "method" = some (Json.str "notifications/initialized")
    ∧ fetch noNetwork (HttpRequest.mk "POST" (Except.ok (Json.obj
        [("method", Json.str "notifications/initialized"), ("id", Json.num 1)])))
      = (HttpResponse.mk 204 RespBody.empty, []) :=
  ⟨rfl, (c9_notification_no_response noNetwork
    [("method", Json.str "notifications/initialized"), ("id", Json.num 1)] rfl).1⟩

/-- C10: each forecast-period field is tested for truthiness, not
presence, so a period whose `temperature` is the number `0` (and whose
`name`, `windSpeed` and `shortForecast` are empty strings) renders with
the fallback texts: `Temperature: Unknown°F`, `Unknown:`, and so on. -/
theorem c10_truthiness_fallbacks
    (fields : List (String × Json))
    (hname : lookupField fields "name" = some (Json.str ""))
    (htemp : lookupField fields "temperature" = some (Json.num 0))
    (hunit : lookupField fields "temperatureUnit" = some (Json.str "F"))
    (hwind : lookupField fields "windSpeed" = some (Json.str ""))
    (hdir : lookupField fields "windDirection" = none)
    (hshort : lookupField fields "shortForecast" = some (Json.str "")) :
    formatPeriod (Json.obj fields)
      = Except.ok "Unknown:\nTemperature: Unknown°F\nWind: Unknown \nNo forecast available\n---" := by
  simp [formatPeriod, Json.isNull, Json.get, jsOrStr, Json.truthy, jsToString,
    hname, htemp, hunit, hwind, hdir, hshort]
  rfl

theorem c10_truthiness_fallbacks_witness :
    lookupField [("name", Json.str ""), ("temperature", Json.num 0),
        ("temperatureUnit", Json.str "F"), ("windSpeed", Json.str ""),
        ("shortForecast", Json.str "")] "name" = some (Json.str "")
    ∧ formatPeriod (Json.obj [("name", Json.str ""), ("temperature", Json.num 0),
        ("temperatureUnit", Json.str "F"), ("windSpeed", Json.str ""),
        ("shortForecast", Json.str "")])
      = Except.ok "Unknown:\nTemperature: Unknown°F\nWind: Unknown \nNo forecast available\n---" :=
  ⟨rfl, c10_truthiness_fallbacks
    [("name", Json.str ""), ("temperature", Json.num 0),
      ("temperatureUnit", Json.str "F"), ("windSpeed", Json.str ""),
      ("shortForecast", Json.str "")] rfl rfl rfl rfl rfl rfl⟩

theorem c7_failures_normalized_to_none_witness :
    makeNWSRequest FetchOutcome.netError = none
    ∧ ("zz" : String) ≠ ""
    ∧ makeNWSRequest (noNetwork (alertsUrl (jsToUpper "zz"))) = none
    ∧ getAlertsBranch noNetwork (Json.obj [("state", Json.str "zz")])
      = (Except.ok (RpcOut.success (contentResult "Failed to retrieve alerts data")),
          [alertsUrl (jsToUpper "zz")])
    ∧ makeNWSRequest (noNetwork (pointsUrl 1 2)) = none
    ∧ getForecastBranch noNetwork
        (Json.obj [("latitude", Json.num 1), ("longitude", Json.num 2)])
      = (Except.ok (RpcOut.success (contentResult (gridFailText 1 2))),
          [pointsUrl 1 2]) :=
  ⟨(c7_failures_normalized_to_none.1 none).1, by decide, rfl,
    c7_failures_normalized_to_none.2.2.1 noNetwork "zz" (by decide) rfl,
    rfl,
    c7_failures_normalized_to_none.2.2.2 noNetwork 1 2 rfl⟩
